import Mathlib

/-!
Verification of the movie-review backend (Express + Mongoose).

The embedding models the review lifecycle routes of
`src/server/routes/reviews.js`, the schemas and the rating-aggregation
static and hooks of `src/server/models/index.js`, as pure functions over
an explicit database state.  MongoDB documents become Lean structures,
the collections become lists, and each route handler becomes a function
from the database state (plus the request inputs) to a result value and
the successor state.
-/

/-- A user document (`userSchema` in `src/server/models/index.js`): only
the fields the review routes touch.  `profilePicture` defaults to null. -/
structure User where
  id : Nat
  username : String
  profilePicture : Option String
deriving DecidableEq

/-- A movie document (`movieSchema`): only the identity and the two
denormalized aggregate fields matter to the review routes.
`averageRating` defaults to 0 and `totalReviews` to 0. -/
structure Movie where
  id : Nat
  title : String
  averageRating : ℚ
  totalReviews : Nat
deriving DecidableEq

/-- A review document (`reviewSchema`): `rating` is a number validated to
an integer in [1,5] at the route, `helpfulVotes` defaults to 0 (the schema
declares no lower bound), `createdAt` is the timestamp used by the
`sort(\x7b createdAt: -1 \x7d)` listing order. -/
structure Review where
  id : Nat
  userId : Nat
  movieId : Nat
  rating : Int
  reviewText : String
  helpfulVotes : Int
  isVerified : Bool
  createdAt : Nat
deriving DecidableEq

/-- The persistent store: the three collections the review routes use. -/
structure DB where
  users : List User
  movies : List Movie
  reviews : List Review
deriving DecidableEq

/-- `Movie.findById` / the `$match` stage keyed by `_id`. -/
def getMovie (db : DB) (mid : Nat) : Option Movie :=
  db.movies.find? (fun m => decide (m.id = mid))

/-- `Review.findById`. -/
def getReview (db : DB) (rid : Nat) : Option Review :=
  db.reviews.find? (fun r => decide (r.id = rid))

/-- `User.findById`, as performed by `populate('userId', ...)`. -/
def getUser (db : DB) (uid : Nat) : Option User :=
  db.users.find? (fun u => decide (u.id = uid))

/-- The reviews associated to a movie: the `$lookup` with
`localField: _id, foreignField: movieId` (also the `find(\x7b movieId \x7d)`
filter of the listing route). -/
def movieReviews (db : DB) (mid : Nat) : List Review :=
  db.reviews.filter (fun r => decide (r.movieId = mid))

/-- The multiset of ratings `$reviews.rating` feeding `$avg`. -/
def ratingsOf (db : DB) (mid : Nat) : List Int :=
  (movieReviews db mid).map (fun r => r.rating)

/-- JavaScript `Math.round`: round half toward positive infinity. -/
def jsRound (x : ℚ) : Int :=
  ⌊x + 1 / 2⌋

/-- `$avg: '$reviews.rating'` followed by the JavaScript arithmetic of
`calculateAverageRating`: `$avg` of an empty array is `null`, and
`null * 10` evaluates to `0` in JavaScript, so an empty rating list
yields 0; otherwise the arithmetic mean. -/
def avgOf (rs : List Int) : ℚ :=
  if rs.length = 0 then 0 else (rs.sum : ℚ) / (rs.length : ℚ)

/-- `Math.round(averageRating * 10) / 10`, the value written to
`Movie.averageRating` by `calculateAverageRating`. -/
def roundedAvg (rs : List Int) : ℚ :=
  ((jsRound (avgOf rs * 10) : ℚ)) / 10

/-- `movieSchema.statics.calculateAverageRating` (models/index.js:211).
The aggregation `$match`-es the movie by `_id`; when no movie matches,
`result` is empty and nothing is written (the function returns without
error).  Otherwise `findByIdAndUpdate` stores the rounded average and the
review count on the movie. -/
def calculateAverageRating (db : DB) (mid : Nat) : DB :=
  match getMovie db mid with
  | none => db
  | some _ =>
    let rs := ratingsOf db mid
    { db with movies := db.movies.map (fun m =>
        if m.id = mid then
          { m with averageRating := roundedAvg rs, totalReviews := rs.length }
        else m) }

/-- Outcome of `POST /api/reviews` (reviews.js:11).  `created` carries the
stored review and, from `populate('userId', 'username profilePicture')`,
the submitting user's public profile fields. -/
inductive SubmitResult where
  | invalidBody
  | movieNotFound
  | alreadyReviewed
  | created (review : Review) (userInfo : Option (String × Option String))
deriving DecidableEq

/-- The express-validator chain of the submit route: integer rating in
[1,5], review text length in [10,2000]. -/
def validSubmit (rating : Int) (text : String) : Bool :=
  decide (1 ≤ rating ∧ rating ≤ 5 ∧ 10 ≤ text.length ∧ text.length ≤ 2000)

/-- `router.post('/')` (reviews.js:11-62): validate, check the movie
exists, reject a duplicate (userId, movieId) review, save the new review
(which fires the `post('save')` hook, i.e. `calculateAverageRating`), and
answer with the review populated with the user's public fields.
`nid` is the fresh `_id` MongoDB assigns and `now` the creation time. -/
def submitReview (db : DB) (uid mid : Nat) (rating : Int) (text : String)
    (nid now : Nat) : SubmitResult × DB :=
  if validSubmit rating text then
    match getMovie db mid with
    | none => (SubmitResult.movieNotFound, db)
    | some _ =>
      match db.reviews.find? (fun r => decide (r.userId = uid ∧ r.movieId = mid)) with
      | some _ => (SubmitResult.alreadyReviewed, db)
      | none =>
        let r : Review :=
          { id := nid, userId := uid, movieId := mid, rating := rating,
            reviewText := text, helpfulVotes := 0, isVerified := false,
            createdAt := now }
        let db1 : DB := { db with reviews := db.reviews ++ [r] }
        let db2 := calculateAverageRating db1 mid
        (SubmitResult.created r
          ((getUser db uid).map (fun u => (u.username, u.profilePicture))), db2)
  else (SubmitResult.invalidBody, db)

/-- Outcome of `PUT /api/reviews/:reviewId`. -/
inductive UpdateResult where
  | invalidBody
  | notFound
  | updated
deriving DecidableEq

/-- The optional validators of the update route: each field is checked
only when supplied. -/
def validUpdate (rating? : Option Int) (text? : Option String) : Bool :=
  (match rating? with
   | none => true
   | some v => decide (1 ≤ v ∧ v ≤ 5)) &&
  (match text? with
   | none => true
   | some t => decide (10 ≤ t.length ∧ t.length ≤ 2000))

/-- The `updateData` object of the update route applied to a review
document: only the supplied fields change. -/
def applyUpdateData (rating? : Option Int) (text? : Option String)
    (r : Review) : Review :=
  let r1 := match rating? with
    | some v => { r with rating := v }
    | none => r
  match text? with
  | some t => { r1 with reviewText := t }
  | none => r1

/-- `router.put('/:reviewId')` (reviews.js:181-221): validate, look the
review up by `(_id, userId)` (ownership folded into not-found), then
`findByIdAndUpdate` with only the supplied fields.  `findByIdAndUpdate`
fires neither the `save` nor the `findOneAndDelete` middleware, so no
aggregate recomputation happens on this path. -/
def updateReview (db : DB) (rid uid : Nat) (rating? : Option Int)
    (text? : Option String) : UpdateResult × DB :=
  if validUpdate rating? text? then
    match db.reviews.find? (fun r => decide (r.id = rid ∧ r.userId = uid)) with
    | none => (UpdateResult.notFound, db)
    | some _ =>
      (UpdateResult.updated,
        { db with reviews := db.reviews.map (fun r =>
            if r.id = rid then applyUpdateData rating? text? r else r) })
  else (UpdateResult.invalidBody, db)

/-- Outcome of `DELETE /api/reviews/:reviewId`. -/
inductive DeleteResult where
  | notFound
  | deleted
deriving DecidableEq

/-- `reviewSchema.post('findOneAndDelete')` (models/index.js:243-247).
In mongoose query middleware `this` is the Query object, not the deleted
document, so `this.movieId` is the query's (absent) `movieId` property;
the hook receives it here as an `Option`, and the `if (this.movieId)`
guard skips the recomputation when it is `none`. -/
def postDeleteHook (queryMovieId : Option Nat) (db : DB) : DB :=
  match queryMovieId with
  | some mid => calculateAverageRating db mid
  | none => db

/-- `router.delete('/:reviewId')` (reviews.js:226-241):
`findOneAndDelete(\x7b _id, userId \x7d)` removes the owned review; the
post hook then runs with the Query as `this`, whose `movieId` property is
undefined, so no aggregate recomputation takes place. -/
def deleteReview (db : DB) (rid uid : Nat) : DeleteResult × DB :=
  match db.reviews.find? (fun r => decide (r.id = rid ∧ r.userId = uid)) with
  | none => (DeleteResult.notFound, db)
  | some _ =>
    let keep : Review → Bool := fun r => !decide (r.id = rid ∧ r.userId = uid)
    let db1 : DB := { db with reviews := db.reviews.filter keep }
    (DeleteResult.deleted, postDeleteHook none db1)

/-- `router.post('/:reviewId/helpful')` (reviews.js:246-267): find the
review, increment `helpfulVotes` by one, `save()` (which fires the
`post('save')` hook, i.e. `calculateAverageRating` for the review's
movie), and answer with the new counter value. -/
def markHelpful (db : DB) (rid : Nat) : Option Int × DB :=
  match getReview db rid with
  | none => (none, db)
  | some r =>
    let newVotes := r.helpfulVotes + 1
    let db1 : DB := { db with reviews := db.reviews.map (fun x =>
        if x.id = rid then { x with helpfulVotes := newVotes } else x) }
    (some newVotes, calculateAverageRating db1 r.movieId)

/-- A value of the pagination JSON object: a number or a boolean. -/
inductive JsonVal where
  | num (n : Nat)
  | bool (b : Bool)
deriving DecidableEq

/-- Stable insertion of a review into a list sorted by `createdAt`
descending; `r` moves past `x` only when strictly newer, so documents
with equal timestamps keep their relative order. -/
def insertByCreatedDesc (r : Review) : List Review → List Review
  | [] => [r]
  | x :: xs =>
    if x.createdAt < r.createdAt then r :: x :: xs
    else x :: insertByCreatedDesc r xs

/-- `.sort(\x7b createdAt: -1 \x7d)`: newest first. -/
def sortByCreatedDesc : List Review → List Review
  | [] => []
  | x :: xs => insertByCreatedDesc x (sortByCreatedDesc xs)

/-- `router.get('/movie/:movieId')` (reviews.js:67-104): 404 when the
movie is absent; otherwise skip `(page-1)*limit` reviews of the movie in
`createdAt`-descending order, take `limit`, and assemble the pagination
object exactly as the route's `res.json` literal does — note the total
count travels under the key `totalReviews`. -/
def listMovieReviews (db : DB) (mid page limit : Nat) :
    Option (List Review × List (String × JsonVal)) :=
  match getMovie db mid with
  | none => none
  | some _ =>
    let skip := (page - 1) * limit
    let total := (movieReviews db mid).length
    let totalPages := (total + limit - 1) / limit
    some (((sortByCreatedDesc (movieReviews db mid)).drop skip).take limit,
      [("currentPage", JsonVal.num page),
       ("totalPages", JsonVal.num totalPages),
       ("totalReviews", JsonVal.num total),
       ("hasNext", JsonVal.bool (decide (page < totalPages))),
       ("hasPrev", JsonVal.bool (decide (1 < page)))])

/-- The review-route operations, for stating properties of arbitrary
operation sequences. -/
inductive Op where
  | submit (uid mid : Nat) (rating : Int) (text : String) (nid now : Nat)
  | update (rid uid : Nat) (rating? : Option Int) (text? : Option String)
  | delete (rid uid : Nat)
  | helpful (rid : Nat)

/-- State transition of one route invocation. -/
def applyOp (db : DB) : Op → DB
  | Op.submit uid mid rating text nid now => (submitReview db uid mid rating text nid now).2
  | Op.update rid uid rating? text? => (updateReview db rid uid rating? text?).2
  | Op.delete rid uid => (deleteReview db rid uid).2
  | Op.helpful rid => (markHelpful db rid).2

/-- State after a sequence of route invocations. -/
def runOps (db : DB) (ops : List Op) : DB :=
  ops.foldl applyOp db

/-- The unique compound index `\x7b userId: 1, movieId: 1 \x7d` of
`reviewSchema`: no two stored reviews share the (user, movie) pair. -/
def uniquePerUserMovie (db : DB) : Prop :=
  db.reviews.Pairwise (fun a b => ¬(a.userId = b.userId ∧ a.movieId = b.movieId))

/-- Every stored helpful-vote counter is nonnegative. -/
def votesNonneg (db : DB) : Prop :=
  ∀ r ∈ db.reviews, 0 ≤ r.helpfulVotes

/-- The aggregate-rating value as the spec phrases it: the arithmetic
mean of the ratings rounded to one decimal place
(`round(mean * 10) / 10`), and 0 when the review set is empty.  Stated
separately from `roundedAvg` (which transcribes the source arithmetic) so
that their agreement is a theorem. -/
def specAverageRating (rs : List Int) : ℚ :=
  if rs = [] then 0
  else ((⌊(rs.sum : ℚ) / (rs.length : ℚ) * 10 + 1 / 2⌋ : ℚ)) / 10

/-- Sample user: reviewer of the sample movie. -/
def exUser : User := { id := 1, username := "alice", profilePicture := none }

/-- Sample movie with one review of rating 5; its denormalized fields are
consistent with that review set. -/
def exMovie : Movie := { id := 10, title := "Heat", averageRating := 5, totalReviews := 1 }

/-- The single stored review of `exMovie`, owned by `exUser`. -/
def exReview : Review :=
  { id := 100, userId := 1, movieId := 10, rating := 5,
    reviewText := "a fine movie indeed", helpfulVotes := 0,
    isVerified := false, createdAt := 1 }

/-- Sample database: one user, one movie, one review, aggregates in sync. -/
def exDb : DB := { users := [exUser], movies := [exMovie], reviews := [exReview] }

/-- A movie nobody has reviewed yet, for exercising the submit path. -/
def exMovieNew : Movie := { id := 20, title := "Ran", averageRating := 0, totalReviews := 0 }

/-- Database for the submit scenario: `exUser` has not reviewed
`exMovieNew`. -/
def exDbSubmit : DB := { users := [exUser], movies := [exMovieNew], reviews := [] }

/-- A review whose movie is absent from the store (concurrently deleted),
for the aggregator no-op scenario. -/
def exOrphanReview : Review :=
  { id := 300, userId := 1, movieId := 99, rating := 4,
    reviewText := "the movie is gone now", helpfulVotes := 2,
    isVerified := false, createdAt := 3 }

/-- Database whose only review points at a missing movie. -/
def exDbOrphan : DB := { users := [exUser], movies := [], reviews := [exOrphanReview] }

/-- One of the five reviews of the pagination scenario: review `i` was
created at time `i`, so the `createdAt`-descending listing order is
5, 4, 3, 2, 1. -/
def pageReview (i : Nat) : Review :=
  { id := i, userId := i, movieId := 10, rating := 4,
    reviewText := "well worth watching", helpfulVotes := 0,
    isVerified := false, createdAt := i }

/-- Database for the pagination scenario: one movie with five reviews. -/
def exDbPage : DB :=
  { users := [exUser], movies := [exMovie],
    reviews := [pageReview 1, pageReview 2, pageReview 3, pageReview 4, pageReview 5] }

example : roundedAvg [3] = 3 := by norm_num [roundedAvg, jsRound, avgOf]
example : roundedAvg [5, 3] = 4 := by norm_num [roundedAvg, jsRound, avgOf]
example : roundedAvg [] = 0 := by norm_num [roundedAvg, jsRound, avgOf]
example : roundedAvg [1, 2] = 3 / 2 := by norm_num [roundedAvg, jsRound, avgOf]
example : roundedAvg [1, 1, 2] = 13 / 10 := by norm_num [roundedAvg, jsRound, avgOf]

/-! ### Helper lemmas -/

theorem find?_map_congr {α : Type} (f : α → α) (p : α → Bool)
    (hf : ∀ a, p (f a) = p a) (l : List α) :
    (l.map f).find? p = (l.find? p).map f := by
  induction l with
  | nil => rfl
  | cons a l ih =>
    by_cases h : p a = true
    · have h' : p (f a) = true := by rw [hf]; exact h
      simp [List.find?_cons_of_pos, h, h']
    · have hb : ¬ p a = true := h
      have h' : ¬ p (f a) = true := by rw [hf]; exact hb
      simp only [List.map_cons]
      rw [List.find?_cons_of_neg _ h', List.find?_cons_of_neg _ hb, ih]

theorem filter_map_congr {α : Type} (f : α → α) (p : α → Bool)
    (hf : ∀ a, p (f a) = p a) (l : List α) :
    (l.map f).filter p = (l.filter p).map f := by
  induction l with
  | nil => rfl
  | cons a l ih =>
    by_cases h : p a = true <;>
      simp [List.filter_cons, h, hf, ih]

theorem calc_reviews (db : DB) (mid : Nat) :
    (calculateAverageRating db mid).reviews = db.reviews := by
  unfold calculateAverageRating
  cases getMovie db mid <;> rfl

theorem calc_users (db : DB) (mid : Nat) :
    (calculateAverageRating db mid).users = db.users := by
  unfold calculateAverageRating
  cases getMovie db mid <;> rfl

theorem getMovie_calc (db : DB) (mid : Nat) (m : Movie)
    (h : getMovie db mid = some m) :
    getMovie (calculateAverageRating db mid) mid =
      some { m with averageRating := roundedAvg (ratingsOf db mid),
                    totalReviews := (movieReviews db mid).length } := by
  have h' : db.movies.find? (fun x => decide (x.id = mid)) = some m := h
  have hid : m.id = mid := by
    have := List.find?_some h'
    simpa using this
  unfold calculateAverageRating
  rw [h]
  show getMovie { db with movies := db.movies.map (fun x =>
      if x.id = mid then
        { x with averageRating := roundedAvg (ratingsOf db mid),
                 totalReviews := (ratingsOf db mid).length }
      else x) } mid = _
  unfold getMovie
  rw [find?_map_congr
        (fun x => if x.id = mid then
            { x with averageRating := roundedAvg (ratingsOf db mid),
                     totalReviews := (ratingsOf db mid).length }
          else x)
        (fun x => decide (x.id = mid))
        (fun a => by by_cases ha : a.id = mid <;> simp [ha]) db.movies]
  rw [h']
  simp [hid, ratingsOf]

theorem roundedAvg_eq_spec (rs : List Int) :
    roundedAvg rs = specAverageRating rs := by
  unfold roundedAvg specAverageRating avgOf jsRound
  rcases rs with _ | ⟨a, l⟩
  · norm_num
  · simp

theorem movieReviews_append (db : DB) (mid : Nat) (r : Review)
    (h : r.movieId = mid) :
    movieReviews { db with reviews := db.reviews ++ [r] } mid
      = movieReviews db mid ++ [r] := by
  unfold movieReviews
  show (db.reviews ++ [r]).filter _ = _
  rw [List.filter_append]
  simp [h]

theorem movieReviews_map (db : DB) (mid : Nat) (f : Review → Review)
    (hf : ∀ r, (f r).movieId = r.movieId) :
    movieReviews { db with reviews := db.reviews.map f } mid
      = (movieReviews db mid).map f := by
  unfold movieReviews
  exact filter_map_congr f _ (fun a => by simp [hf]) db.reviews

theorem ratingsOf_map (db : DB) (mid : Nat) (f : Review → Review)
    (hfm : ∀ r, (f r).movieId = r.movieId) (hfr : ∀ r, (f r).rating = r.rating) :
    ratingsOf { db with reviews := db.reviews.map f } mid = ratingsOf db mid := by
  unfold ratingsOf
  rw [movieReviews_map db mid f hfm, List.map_map]
  exact List.map_congr_left (fun a _ => hfr a)

theorem applyUpdateData_votes (rating? : Option Int) (text? : Option String)
    (r : Review) :
    (applyUpdateData rating? text? r).helpfulVotes = r.helpfulVotes := by
  unfold applyUpdateData
  cases rating? <;> cases text? <;> rfl

theorem applyUpdateData_userId (rating? : Option Int) (text? : Option String)
    (r : Review) :
    (applyUpdateData rating? text? r).userId = r.userId := by
  unfold applyUpdateData
  cases rating? <;> cases text? <;> rfl

theorem applyUpdateData_movieId (rating? : Option Int) (text? : Option String)
    (r : Review) :
    (applyUpdateData rating? text? r).movieId = r.movieId := by
  unfold applyUpdateData
  cases rating? <;> cases text? <;> rfl

theorem applyUpdateData_id (rating? : Option Int) (text? : Option String)
    (r : Review) :
    (applyUpdateData rating? text? r).id = r.id := by
  unfold applyUpdateData
  cases rating? <;> cases text? <;> rfl

theorem votesNonneg_calc (db : DB) (mid : Nat) (h : votesNonneg db) :
    votesNonneg (calculateAverageRating db mid) := by
  intro r hr
  rw [calc_reviews] at hr
  exact h r hr

theorem votesNonneg_submit (db : DB) (uid mid : Nat) (rating : Int) (text : String)
    (nid now : Nat) (h : votesNonneg db) :
    votesNonneg (submitReview db uid mid rating text nid now).2 := by
  unfold submitReview
  split
  · split
    · exact h
    · split
      · exact h
      · dsimp only
        apply votesNonneg_calc
        intro x hx
        rcases List.mem_append.1 hx with h1 | h1
        · exact h x h1
        · rcases List.mem_singleton.1 h1 with rfl
          norm_num
  · exact h

theorem votesNonneg_update (db : DB) (rid uid : Nat) (rating? : Option Int)
    (text? : Option String) (h : votesNonneg db) :
    votesNonneg (updateReview db rid uid rating? text?).2 := by
  unfold updateReview
  split
  · split
    · exact h
    · intro x hx
      rcases List.mem_map.1 hx with ⟨y, hy, rfl⟩
      by_cases hid : y.id = rid
      · simpa [hid, applyUpdateData_votes] using h y hy
      · simpa [hid] using h y hy
  · exact h

theorem votesNonneg_delete (db : DB) (rid uid : Nat) (h : votesNonneg db) :
    votesNonneg (deleteReview db rid uid).2 := by
  unfold deleteReview
  split
  · exact h
  · dsimp only [postDeleteHook]
    intro x hx
    exact h x (List.mem_of_mem_filter hx)

theorem votesNonneg_helpful (db : DB) (rid : Nat) (h : votesNonneg db) :
    votesNonneg (markHelpful db rid).2 := by
  unfold markHelpful
  split
  · exact h
  · next r heq =>
    dsimp only
    apply votesNonneg_calc
    intro x hx
    rcases List.mem_map.1 hx with ⟨y, hy, rfl⟩
    have hr0 : 0 ≤ r.helpfulVotes := h r (List.mem_of_find?_eq_some heq)
    by_cases hid : y.id = rid
    · simp only [hid, if_true]
      show 0 ≤ r.helpfulVotes + 1
      omega
    · simpa [hid] using h y hy

theorem votesNonneg_applyOp (db : DB) (op : Op) (h : votesNonneg db) :
    votesNonneg (applyOp db op) := by
  cases op with
  | submit uid mid rating text nid now => exact votesNonneg_submit db uid mid rating text nid now h
  | update rid uid rating? text? => exact votesNonneg_update db rid uid rating? text? h
  | delete rid uid => exact votesNonneg_delete db rid uid h
  | helpful rid => exact votesNonneg_helpful db rid h

theorem votesNonneg_runOps (db : DB) (ops : List Op) (h : votesNonneg db) :
    votesNonneg (runOps db ops) := by
  induction ops generalizing db with
  | nil => exact h
  | cons op ops ih => exact ih _ (votesNonneg_applyOp db op h)

theorem unique_map (db : DB) (f : Review → Review)
    (hu : ∀ r, (f r).userId = r.userId) (hm : ∀ r, (f r).movieId = r.movieId)
    (h : uniquePerUserMovie db) :
    uniquePerUserMovie { db with reviews := db.reviews.map f } := by
  unfold uniquePerUserMovie at h ⊢
  show (db.reviews.map f).Pairwise _
  rw [List.pairwise_map]
  exact h.imp (fun hab => by simpa [hu, hm] using hab)

theorem unique_submit (db : DB) (uid mid : Nat) (rating : Int) (text : String)
    (nid now : Nat) (h : uniquePerUserMovie db) :
    uniquePerUserMovie (submitReview db uid mid rating text nid now).2 := by
  unfold submitReview
  split
  · split
    · exact h
    · split
      · exact h
      · next hfind =>
        dsimp only
        have hnone := List.find?_eq_none.1 hfind
        unfold uniquePerUserMovie
        rw [calc_reviews]
        show (db.reviews ++ [_]).Pairwise _
        rw [List.pairwise_append]
        refine ⟨h, List.pairwise_singleton _ _, ?_⟩
        intro a ha b hb
        rcases List.mem_singleton.1 hb with rfl
        intro hcontra
        exact absurd (by simpa using hcontra) (by simpa using hnone a ha)
  · exact h

theorem unique_update (db : DB) (rid uid : Nat) (rating? : Option Int)
    (text? : Option String) (h : uniquePerUserMovie db) :
    uniquePerUserMovie (updateReview db rid uid rating? text?).2 := by
  unfold updateReview
  split
  · split
    · exact h
    · exact unique_map db _
        (fun r => by by_cases hid : r.id = rid <;> simp [hid, applyUpdateData_userId])
        (fun r => by by_cases hid : r.id = rid <;> simp [hid, applyUpdateData_movieId]) h
  · exact h

theorem unique_delete (db : DB) (rid uid : Nat) (h : uniquePerUserMovie db) :
    uniquePerUserMovie (deleteReview db rid uid).2 := by
  unfold deleteReview
  split
  · exact h
  · dsimp only [postDeleteHook]
    exact List.Pairwise.sublist (List.filter_sublist _) h

theorem unique_helpful (db : DB) (rid : Nat) (h : uniquePerUserMovie db) :
    uniquePerUserMovie (markHelpful db rid).2 := by
  unfold markHelpful
  split
  · exact h
  · dsimp only
    unfold uniquePerUserMovie
    rw [calc_reviews]
    exact unique_map db _
      (fun r => by by_cases hid : r.id = rid <;> simp [hid])
      (fun r => by by_cases hid : r.id = rid <;> simp [hid]) h

theorem unique_applyOp (db : DB) (op : Op) (h : uniquePerUserMovie db) :
    uniquePerUserMovie (applyOp db op) := by
  cases op with
  | submit uid mid rating text nid now => exact unique_submit db uid mid rating text nid now h
  | update rid uid rating? text? => exact unique_update db rid uid rating? text? h
  | delete rid uid => exact unique_delete db rid uid h
  | helpful rid => exact unique_helpful db rid h

theorem unique_runOps (db : DB) (ops : List Op) (h : uniquePerUserMovie db) :
    uniquePerUserMovie (runOps db ops) := by
  induction ops generalizing db with
  | nil => exact h
  | cons op ops ih => exact ih _ (unique_applyOp db op h)

/-! ### Claim theorems -/

/-- C5: one run of the rating-aggregator recomputation on an existing
movie stores `averageRating` = the arithmetic mean of the associated
review ratings rounded to one decimal place (`round(mean*10)/10`, and
0 when the review set is empty, as `specAverageRating` spells out) and
`totalReviews` = the exact count of associated reviews. -/
theorem c5_aggregator_mean_rounded_and_count (db : DB) (mid : Nat) (m : Movie)
    (h : getMovie db mid = some m) :
    getMovie (calculateAverageRating db mid) mid =
      some { m with averageRating := roundedAvg (ratingsOf db mid),
                    totalReviews := (movieReviews db mid).length }
    ∧ roundedAvg (ratingsOf db mid) = specAverageRating (ratingsOf db mid) :=
  ⟨getMovie_calc db mid m h, roundedAvg_eq_spec _⟩

/-- Witness for C5 at the sample database. -/
theorem c5_aggregator_mean_rounded_and_count_witness :
    getMovie exDb 10 = some exMovie
    ∧ (getMovie (calculateAverageRating exDb 10) 10 =
        some { exMovie with averageRating := roundedAvg (ratingsOf exDb 10),
                            totalReviews := (movieReviews exDb 10).length }
      ∧ roundedAvg (ratingsOf exDb 10) = specAverageRating (ratingsOf exDb 10)) :=
  ⟨rfl, c5_aggregator_mean_rounded_and_count exDb 10 exMovie rfl⟩

/-- C6: when the movie id matches no stored movie, the aggregator
recomputation writes nothing and returns the state unchanged (the
embedding is a total function, so no error is raised), and a triggering
review operation — here a helpful-vote save on a review of the vanished
movie — still reports success. -/
theorem c6_aggregator_noop_when_movie_missing (db : DB) (mid rid : Nat)
    (r : Review) (h : getMovie db mid = none) (hr : getReview db rid = some r)
    (hrm : r.movieId = mid) :
    calculateAverageRating db mid = db
    ∧ (markHelpful db rid).1 = some (r.helpfulVotes + 1) := by
  constructor
  · unfold calculateAverageRating
    rw [h]
  · unfold markHelpful
    rw [hr]

/-- Witness for C6 at the orphan-review database. -/
theorem c6_aggregator_noop_when_movie_missing_witness :
    getMovie exDbOrphan 99 = none
    ∧ (calculateAverageRating exDbOrphan 99 = exDbOrphan
      ∧ (markHelpful exDbOrphan 300).1 = some (exOrphanReview.helpfulVotes + 1)) :=
  ⟨rfl, c6_aggregator_noop_when_movie_missing exDbOrphan 99 300 exOrphanReview rfl rfl rfl⟩

/-- C7: an edit that supplies new text but no new rating leaves every
movie's `averageRating` and `totalReviews` exactly as they were (the
update route never touches the movie collection). -/
theorem c7_text_only_edit_preserves_aggregates (db : DB) (rid uid : Nat)
    (text : String) (mid : Nat) :
    (getMovie ((updateReview db rid uid none (some text)).2) mid).map
        (fun m => (m.averageRating, m.totalReviews))
      = (getMovie db mid).map (fun m => (m.averageRating, m.totalReviews)) := by
  unfold updateReview
  split
  · split
    · rfl
    · rfl
  · rfl

/-- C3: a valid submission by a user who has not yet reviewed an existing
movie creates the review (with `helpfulVotes = 0`), recomputes the
movie's aggregates over the enlarged review set via the save hook, and
answers with the created review enriched with the submitting user's
`username` and `profilePicture`. -/
theorem c3_submit_creates_review_and_recomputes_aggregates
    (db : DB) (uid mid : Nat) (rating : Int) (text : String) (nid now : Nat)
    (usr : User) (m : Movie)
    (hv : validSubmit rating text = true)
    (hm : getMovie db mid = some m)
    (hnd : db.reviews.find? (fun r => decide (r.userId = uid ∧ r.movieId = mid)) = none)
    (hu : getUser db uid = some usr) :
    (submitReview db uid mid rating text nid now).1 =
      SubmitResult.created
        { id := nid, userId := uid, movieId := mid, rating := rating,
          reviewText := text, helpfulVotes := 0, isVerified := false, createdAt := now }
        (some (usr.username, usr.profilePicture))
    ∧ (submitReview db uid mid rating text nid now).2.reviews
        = db.reviews ++
            [{ id := nid, userId := uid, movieId := mid, rating := rating,
               reviewText := text, helpfulVotes := 0, isVerified := false, createdAt := now }]
    ∧ getMovie (submitReview db uid mid rating text nid now).2 mid =
        some { m with averageRating := roundedAvg (ratingsOf db mid ++ [rating]),
                      totalReviews := (movieReviews db mid).length + 1 } := by
  have hstep : submitReview db uid mid rating text nid now =
      (SubmitResult.created
          { id := nid, userId := uid, movieId := mid, rating := rating,
            reviewText := text, helpfulVotes := 0, isVerified := false, createdAt := now }
          ((getUser db uid).map (fun u => (u.username, u.profilePicture))),
        calculateAverageRating
          { db with reviews := db.reviews ++
              [{ id := nid, userId := uid, movieId := mid, rating := rating,
                 reviewText := text, helpfulVotes := 0, isVerified := false,
                 createdAt := now }] }
          mid) := by
    unfold submitReview
    rw [if_pos hv, hm, hnd]
  refine ⟨?_, ?_, ?_⟩
  · rw [hstep, hu]
    rfl
  · rw [hstep]
    show (calculateAverageRating _ _).reviews = _
    rw [calc_reviews]
  · rw [hstep]
    rw [getMovie_calc
          { db with reviews := db.reviews ++
              [{ id := nid, userId := uid, movieId := mid, rating := rating,
                 reviewText := text, helpfulVotes := 0, isVerified := false,
                 createdAt := now }] }
          mid m hm]
    simp only [ratingsOf,
      movieReviews_append db mid
        { id := nid, userId := uid, movieId := mid, rating := rating,
          reviewText := text, helpfulVotes := 0, isVerified := false,
          createdAt := now } rfl,
      List.map_append, List.length_append, List.map_cons, List.map_nil,
      List.length_cons, List.length_nil]

/-- Witness for C3: first review of the fresh movie in `exDbSubmit`. -/
theorem c3_submit_creates_review_and_recomputes_aggregates_witness :
    validSubmit 4 "quietly devastating film" = true
    ∧ ((submitReview exDbSubmit 1 20 4 "quietly devastating film" 101 7).1 =
        SubmitResult.created
          { id := 101, userId := 1, movieId := 20, rating := 4,
            reviewText := "quietly devastating film", helpfulVotes := 0,
            isVerified := false, createdAt := 7 }
          (some (exUser.username, exUser.profilePicture))
      ∧ (submitReview exDbSubmit 1 20 4 "quietly devastating film" 101 7).2.reviews
          = exDbSubmit.reviews ++
              [{ id := 101, userId := 1, movieId := 20, rating := 4,
                 reviewText := "quietly devastating film", helpfulVotes := 0,
                 isVerified := false, createdAt := 7 }]
      ∧ getMovie (submitReview exDbSubmit 1 20 4 "quietly devastating film" 101 7).2 20 =
          some { exMovieNew with
                   averageRating := roundedAvg (ratingsOf exDbSubmit 20 ++ [4]),
                   totalReviews := (movieReviews exDbSubmit 20).length + 1 }) :=
  ⟨by decide,
    c3_submit_creates_review_and_recomputes_aggregates exDbSubmit 1 20 4
      "quietly devastating film" 101 7 exUser exMovieNew (by decide) rfl rfl rfl⟩

/-- C4: when the acting user already has a review for the movie, a second
well-formed submission attempt answers with the duplicate-review conflict
and leaves the store untouched; moreover the at-most-one-review-per
(user, movie) invariant is preserved by every sequence of route
operations. -/
theorem c4_duplicate_review_conflict_and_uniqueness
    (db : DB) (ops : List Op) (uid mid : Nat) (rating : Int) (text : String)
    (nid now : Nat) (r0 : Review)
    (hui : uniquePerUserMovie db)
    (hdup : db.reviews.find? (fun r => decide (r.userId = uid ∧ r.movieId = mid)) = some r0)
    (hv : validSubmit rating text = true)
    (hme : (getMovie db mid).isSome = true) :
    (submitReview db uid mid rating text nid now).1 = SubmitResult.alreadyReviewed
    ∧ (submitReview db uid mid rating text nid now).2 = db
    ∧ uniquePerUserMovie (runOps db ops) := by
  rcases Option.isSome_iff_exists.1 hme with ⟨m, hm'⟩
  have hstep : submitReview db uid mid rating text nid now =
      (SubmitResult.alreadyReviewed, db) := by
    unfold submitReview
    rw [if_pos hv, hm', hdup]
  exact ⟨by rw [hstep], by rw [hstep], unique_runOps db ops hui⟩

/-- Witness for C4: `exUser` tries to review `exMovie` a second time. -/
theorem c4_duplicate_review_conflict_and_uniqueness_witness :
    uniquePerUserMovie exDb
    ∧ ((submitReview exDb 1 10 3 "watched it twice now" 101 9).1 =
        SubmitResult.alreadyReviewed
      ∧ (submitReview exDb 1 10 3 "watched it twice now" 101 9).2 = exDb
      ∧ uniquePerUserMovie (runOps exDb [Op.helpful 100])) :=
  ⟨by simp [uniquePerUserMovie, exDb],
    c4_duplicate_review_conflict_and_uniqueness exDb [Op.helpful 100] 1 10 3
      "watched it twice now" 101 9 exReview (by simp [uniquePerUserMovie, exDb])
      rfl (by decide) rfl⟩

/-- C9: marking an existing review helpful answers with the incremented
counter and stores exactly that value on the review; the counter starts
at 0 on creation (see C3) and stays nonnegative across every sequence of
route operations. -/
theorem c9_helpful_increments_and_nonneg (db : DB) (rid : Nat) (r : Review)
    (ops : List Op) (hr : getReview db rid = some r) (hnn : votesNonneg db) :
    (markHelpful db rid).1 = some (r.helpfulVotes + 1)
    ∧ getReview (markHelpful db rid).2 rid
        = some { r with helpfulVotes := r.helpfulVotes + 1 }
    ∧ votesNonneg (runOps db ops) := by
  have hid : r.id = rid := by
    have := List.find?_some
      (show db.reviews.find? (fun x => decide (x.id = rid)) = some r from hr)
    simpa using this
  have hstep : markHelpful db rid =
      (some (r.helpfulVotes + 1),
        calculateAverageRating
          { db with reviews := db.reviews.map (fun x =>
              if x.id = rid then { x with helpfulVotes := r.helpfulVotes + 1 } else x) }
          r.movieId) := by
    unfold markHelpful
    rw [hr]
  refine ⟨by rw [hstep], ?_, votesNonneg_runOps db ops hnn⟩
  rw [hstep]
  dsimp only
  unfold getReview
  rw [calc_reviews]
  show (db.reviews.map _).find? _ = _
  rw [find?_map_congr
        (fun x => if x.id = rid then { x with helpfulVotes := r.helpfulVotes + 1 } else x)
        (fun x => decide (x.id = rid))
        (fun a => by by_cases ha : a.id = rid <;> simp [ha]) db.reviews]
  rw [show db.reviews.find? (fun x => decide (x.id = rid)) = some r from hr]
  simp [hid]

/-- Witness for C9 at the sample database. -/
theorem c9_helpful_increments_and_nonneg_witness :
    getReview exDb 100 = some exReview
    ∧ ((markHelpful exDb 100).1 = some (exReview.helpfulVotes + 1)
      ∧ getReview (markHelpful exDb 100).2 100
          = some { exReview with helpfulVotes := exReview.helpfulVotes + 1 }
      ∧ votesNonneg (runOps exDb [Op.helpful 100, Op.delete 100 1])) :=
  ⟨rfl,
    c9_helpful_increments_and_nonneg exDb 100 exReview [Op.helpful 100, Op.delete 100 1]
      rfl (by intro x hx; simp [exDb, exReview] at hx; simp [hx, exReview])⟩

/-- C10: marking a review helpful persists the increment through
`review.save()`, whose post-save hook re-runs the aggregator, so the
review's movie ends up with aggregates re-derived from the current
review set (unchanged ratings, unchanged count). -/
theorem c10_helpful_triggers_recompute (db : DB) (rid : Nat) (r : Review)
    (m : Movie) (hr : getReview db rid = some r)
    (hm : getMovie db r.movieId = some m) :
    getMovie (markHelpful db rid).2 r.movieId =
      some { m with averageRating := roundedAvg (ratingsOf db r.movieId),
                    totalReviews := (movieReviews db r.movieId).length } := by
  have hstep : (markHelpful db rid).2 =
      calculateAverageRating
        { db with reviews := db.reviews.map (fun x =>
            if x.id = rid then { x with helpfulVotes := r.helpfulVotes + 1 } else x) }
        r.movieId := by
    unfold markHelpful
    rw [hr]
  rw [hstep]
  rw [getMovie_calc
        { db with reviews := db.reviews.map (fun x =>
            if x.id = rid then { x with helpfulVotes := r.helpfulVotes + 1 } else x) }
        r.movieId m hm]
  rw [ratingsOf_map db r.movieId _
        (fun a => by by_cases ha : a.id = rid <;> simp [ha])
        (fun a => by by_cases ha : a.id = rid <;> simp [ha])]
  rw [movieReviews_map db r.movieId _
        (fun a => by by_cases ha : a.id = rid <;> simp [ha])]
  simp

/-- Witness for C10 at the sample database. -/
theorem c10_helpful_triggers_recompute_witness :
    getReview exDb 100 = some exReview
    ∧ getMovie (markHelpful exDb 100).2 exReview.movieId =
        some { exMovie with
                 averageRating := roundedAvg (ratingsOf exDb exReview.movieId),
                 totalReviews := (movieReviews exDb exReview.movieId).length } :=
  ⟨rfl, c10_helpful_triggers_recompute exDb 100 exReview exMovie rfl rfl⟩

/-- C1 (failing part, evaluated on the code): in `exDb` the movie's
aggregates are consistent (averageRating 5, one review of rating 5).  The
owner then edits the review's rating to 3 through the update route.  The
edit is stored, but because `findByIdAndUpdate` fires no recompute hook
the movie still carries averageRating 5 and totalReviews 1, although the
recomputation over the current review set would give 3 — the claimed
invariant is broken by the rating-update path. -/
theorem c1_rating_update_leaves_aggregates_stale :
    (updateReview exDb 100 1 (some 3) none).1 = UpdateResult.updated
    ∧ (getReview (updateReview exDb 100 1 (some 3) none).2 100).map
        (fun r => r.rating) = some 3
    ∧ (getMovie (updateReview exDb 100 1 (some 3) none).2 10).map
        (fun m => (m.averageRating, m.totalReviews)) = some ((5 : ℚ), 1)
    ∧ roundedAvg (ratingsOf (updateReview exDb 100 1 (some 3) none).2 10) = 3 := by
  refine ⟨rfl, rfl, rfl, ?_⟩
  have h : ratingsOf (updateReview exDb 100 1 (some 3) none).2 10 = [3] := rfl
  rw [h]
  norm_num [roundedAvg, jsRound, avgOf]

/-- C2 (failing part, evaluated on the code): deleting the only review of
the movie succeeds and empties the review set, but the post-delete hook
reads `this.movieId` off the mongoose Query (undefined), so no
recomputation runs: the movie keeps averageRating 5 and totalReviews 1
instead of the claimed 0 and 0 (the recomputation over the now-empty set
would give 0). -/
theorem c2_delete_only_review_leaves_aggregates_stale :
    (deleteReview exDb 100 1).1 = DeleteResult.deleted
    ∧ ((deleteReview exDb 100 1).2).reviews = []
    ∧ (getMovie ((deleteReview exDb 100 1).2) 10).map
        (fun m => (m.averageRating, m.totalReviews)) = some ((5 : ℚ), 1)
    ∧ roundedAvg (ratingsOf (deleteReview exDb 100 1).2 10) = 0 := by
  refine ⟨rfl, rfl, rfl, ?_⟩
  have h : ratingsOf (deleteReview exDb 100 1).2 10 = [] := rfl
  rw [h]
  norm_num [roundedAvg, jsRound, avgOf]

theorem ceil_div_nat (t l : Nat) (hl : 1 ≤ l) :
    ((((t + l - 1) / l : Nat)) : Int) = ⌈(t : ℚ) / (l : ℚ)⌉ := by
  have hl0 : 0 < l := hl
  have hmod := Nat.div_add_mod (t + l - 1) l
  have hrlt : (t + l - 1) % l < l := Nat.mod_lt _ hl0
  have h1 : t ≤ l * ((t + l - 1) / l) := by omega
  have h2 : l * ((t + l - 1) / l) < t + l := by omega
  set z : Nat := (t + l - 1) / l with hz
  have hlq : (0 : ℚ) < (l : ℚ) := by exact_mod_cast hl0
  have h1q : (t : ℚ) ≤ (l : ℚ) * (z : ℚ) := by exact_mod_cast h1
  have h2q : (l : ℚ) * (z : ℚ) < (t : ℚ) + (l : ℚ) := by exact_mod_cast h2
  have hcast : ((z : ℤ) : ℚ) = (z : ℚ) := by push_cast; rfl
  symm
  rw [Int.ceil_eq_iff]
  constructor
  · rw [lt_div_iff₀ hlq, hcast]
    nlinarith
  · rw [div_le_iff₀ hlq, hcast]
    nlinarith

/-- C8 counterexample: over the five-review database, page 2 with
limit 2 succeeds, but the pagination object of the movie-reviews listing
carries no `totalItems` key at all — the total item count (5) travels
under the key `totalReviews` instead, contradicting the claim that the
response carries it under `totalItems`. -/
theorem c8_counterexample_no_totalItems_key :
    (listMovieReviews exDbPage 10 2 2).map
        (fun res => (res.2.lookup "totalItems", res.2.lookup "totalReviews"))
      = some (none, some (JsonVal.num 5)) := by
  decide

/-- C8 (amended): for page ≥ 1 and limit ≥ 1 on an existing movie, the
listing skips `(page-1)*limit` reviews (in `createdAt`-descending order)
and takes at most `limit`; the pagination object carries
`currentPage = page`, `totalPages = ceil(total/limit)` (the stored
`(total+limit-1)/limit` equals the rational ceiling), the total item
count under the key `totalReviews`, `hasNext = (page < totalPages)` and
`hasPrev = (page > 1)`. -/
theorem c8_pagination_spec (db : DB) (mid page limit : Nat) (m : Movie)
    (hm : getMovie db mid = some m) (hp : 1 ≤ page) (hl : 1 ≤ limit) :
    listMovieReviews db mid page limit =
      some ((((sortByCreatedDesc (movieReviews db mid)).drop
                ((page - 1) * limit)).take limit),
        [("currentPage", JsonVal.num page),
         ("totalPages", JsonVal.num (((movieReviews db mid).length + limit - 1) / limit)),
         ("totalReviews", JsonVal.num (movieReviews db mid).length),
         ("hasNext", JsonVal.bool (decide
            (page < ((movieReviews db mid).length + limit - 1) / limit))),
         ("hasPrev", JsonVal.bool (decide (1 < page)))])
    ∧ ((((sortByCreatedDesc (movieReviews db mid)).drop
          ((page - 1) * limit)).take limit)).length ≤ limit
    ∧ (((((movieReviews db mid).length + limit - 1) / limit : Nat)) : Int)
        = ⌈((movieReviews db mid).length : ℚ) / (limit : ℚ)⌉ := by
  refine ⟨?_, ?_, ceil_div_nat _ _ hl⟩
  · unfold listMovieReviews
    rw [hm]
  · rw [List.length_take]
    exact min_le_left _ _

/-- Witness for C8 (amended) and the concrete scenario: page 2 with
limit 2 over the 5 reviews returns exactly the 3rd and 4th newest
reviews (ids 3 and 2), totalPages 3, hasNext and hasPrev true. -/
theorem c8_pagination_spec_witness :
    ((listMovieReviews exDbPage 10 2 2).map (fun res => res.1.map (fun r => r.id))
        = some [3, 2]
      ∧ (listMovieReviews exDbPage 10 2 2).map (fun res => res.2.lookup "hasNext")
        = some (some (JsonVal.bool true))
      ∧ (listMovieReviews exDbPage 10 2 2).map (fun res => res.2.lookup "hasPrev")
        = some (some (JsonVal.bool true))
      ∧ (listMovieReviews exDbPage 10 2 2).map (fun res => res.2.lookup "totalPages")
        = some (some (JsonVal.num 3)))
    ∧ (listMovieReviews exDbPage 10 2 2 =
        some ((((sortByCreatedDesc (movieReviews exDbPage 10)).drop
                  ((2 - 1) * 2)).take 2),
          [("currentPage", JsonVal.num 2),
           ("totalPages", JsonVal.num (((movieReviews exDbPage 10).length + 2 - 1) / 2)),
           ("totalReviews", JsonVal.num (movieReviews exDbPage 10).length),
           ("hasNext", JsonVal.bool (decide
              (2 < ((movieReviews exDbPage 10).length + 2 - 1) / 2))),
           ("hasPrev", JsonVal.bool (decide (1 < 2)))])
      ∧ ((((sortByCreatedDesc (movieReviews exDbPage 10)).drop
            ((2 - 1) * 2)).take 2)).length ≤ 2
      ∧ (((((movieReviews exDbPage 10).length + 2 - 1) / 2 : Nat)) : Int)
          = ⌈((movieReviews exDbPage 10).length : ℚ) / ((2 : Nat) : ℚ)⌉) :=
  ⟨by decide, c8_pagination_spec exDbPage 10 2 2 exMovie rfl (by decide) (by decide)⟩
